import Mathlib

/-!
Shallow embedding of the meal-lab optimization core:
`src/meal_optimizer.py` (class `MealOptimizer`) and the registry-mutating
wrapper `run_optimization` of `app.py`.

Real numbers of the Python code are modelled as `ℚ`; Python's
`float('inf')` upper bound is modelled as `none : Option ℚ`.  JSON
dictionaries are modelled as association lists looked up with
`List.lookup`.  The external MILP backend (PuLP's `problem.solve()`) is a
black box: it is passed in as an oracle mapping the attempt index (0 for
the first call at line 271, 1 for the retry at line 288) to a solver
verdict plus a raw variable assignment.
-/

namespace MealLab

/-- The `macros` sub-record of a meal JSON entry. -/
structure Macros where
  protein : ℚ
  carbs : ℚ
  fat : ℚ
deriving DecidableEq

/-- One entry of `data/meals.json` as `MealOptimizer` reads it.  `micros` models
the meal's micro-nutrient dictionary; `user_rating` is `none` when the JSON key
is absent (the code then defaults it to 5 at line 196). -/
structure Meal where
  title : String
  estimated_cost_usd : ℚ
  calories : ℚ
  macros : Macros
  micros : List (String × ℚ)
  user_rating : Option ℚ
deriving DecidableEq

/-- A `{min, max}` bound pair of a nutritional profile.  `max = none` models
`float('inf')`, so that the code's `max_val < float('inf')` test is
`max.isSome`. -/
structure Bounds where
  min : ℚ
  max : Option ℚ
deriving DecidableEq

/-- A nutritional profile: nutrient name to bound pair (a JSON dictionary). -/
abbrev Profile := List (String × Bounds)

/-- `self.macro_nutrients` set in `__init__` (line 61). -/
def macro_nutrients : List String := ["protein", "carbs", "fat"]

/-- `self.micro_nutrients` set in `__init__` (lines 62-66). -/
def micro_nutrients : List String :=
  ["vitamin_a_mcg", "vitamin_c_mg", "vitamin_d_mcg", "vitamin_e_mg",
   "calcium_mg", "iron_mg", "magnesium_mg", "potassium_mg",
   "sodium_mg", "zinc_mg"]

/-- `self.all_nutrients = self.macro_nutrients + self.micro_nutrients` (line 67). -/
def all_nutrients : List String := macro_nutrients ++ micro_nutrients

/-- The state of a `MealOptimizer` after `__init__`: the loaded meal list, the
profile registry, and the schedule parameters taken from the config file
(`days_of_week` and `meals_per_day` at lines 55-57). -/
structure Optimizer where
  meals : List Meal
  nutritional_profiles : List (String × Profile)
  days_of_week : List String
  meals_per_day : Nat
deriving DecidableEq

/-- `self.num_meals = len(self.meals)` (line 54). -/
def Optimizer.num_meals (o : Optimizer) : Nat := o.meals.length

/-- `self.num_days = len(self.days_of_week)` (line 56). -/
def Optimizer.num_days (o : Optimizer) : Nat := o.days_of_week.length

/-- `self.total_meal_slots = self.num_days * self.meals_per_day` (line 58). -/
def Optimizer.total_meal_slots (o : Optimizer) : Nat :=
  o.num_days * o.meals_per_day

/-- Placeholder meal for the (never reached) out-of-range index of
`self.meals[i]`, which in Python would raise `IndexError`. -/
def defaultMeal : Meal := ⟨"", 0, 0, ⟨0, 0, 0⟩, [], none⟩

/-- `self.meals[i]`; `solve` and `_extract_solution` only index with
`i < num_meals`. -/
def mealAt (o : Optimizer) (i : Nat) : Meal := o.meals.getD i defaultMeal

/-- `_get_nutrient_value` (lines 108-126).  The final branch raises
`ValueError` in Python; `solve` only calls this with nutrients from the fixed
lists, so it is modelled as 0 here.  A missing `micros` key would raise
`KeyError`; concrete meals in this development carry all ten micro keys. -/
def get_nutrient_value (meal : Meal) (nutrient : String) : ℚ :=
  if nutrient = "protein" then meal.macros.protein
  else if nutrient = "carbs" then meal.macros.carbs
  else if nutrient = "fat" then meal.macros.fat
  else if micro_nutrients.contains nutrient then (meal.micros.lookup nutrient).getD 0
  else if nutrient = "calories" then meal.calories
  else 0

/-- `_map_profile_nutrient` (lines 128-150): the literal dictionary
`mapping.get(profile_nutrient, profile_nutrient)` as an if-chain. -/
def map_profile_nutrient (profile_nutrient : String) : String :=
  if profile_nutrient = "vitaminA" then "vitamin_a_mcg"
  else if profile_nutrient = "vitaminC" then "vitamin_c_mg"
  else if profile_nutrient = "vitaminD" then "vitamin_d_mcg"
  else if profile_nutrient = "vitaminE" then "vitamin_e_mg"
  else if profile_nutrient = "calcium" then "calcium_mg"
  else if profile_nutrient = "iron" then "iron_mg"
  else if profile_nutrient = "magnesium" then "magnesium_mg"
  else if profile_nutrient = "potassium" then "potassium_mg"
  else if profile_nutrient = "sodium" then "sodium_mg"
  else if profile_nutrient = "zinc" then "zinc_mg"
  else profile_nutrient

/-- The values of the `_map_profile_nutrient` dictionary. -/
def mappingImages : List String :=
  ["vitamin_a_mcg", "vitamin_c_mg", "vitamin_d_mcg", "vitamin_e_mg",
   "calcium_mg", "iron_mg", "magnesium_mg", "potassium_mg",
   "sodium_mg", "zinc_mg"]

/-- One term `coeff * x[meal, slot]` of a PuLP linear expression. -/
structure LinTerm where
  coeff : ℚ
  meal : Nat
  slot : Nat
deriving DecidableEq

/-- Comparison operator of a PuLP constraint. -/
inductive CmpOp
  | le
  | ge
  | eqc
deriving DecidableEq

/-- One PuLP constraint `sum(terms) (≤ | ≥ | =) rhs` added via `problem +=`. -/
structure Constraint where
  terms : List LinTerm
  op : CmpOp
  rhs : ℚ
deriving DecidableEq

/-- Optimization direction (`LpMinimize` / `LpMaximize`, lines 170-173). -/
inductive Sense
  | minimize
  | maximize
deriving DecidableEq

/-- The binary program `solve` builds: sense, objective expression, and the
constraint list in the order the `problem +=` statements add them. -/
structure Model where
  sense : Sense
  objective : List LinTerm
  constraints : List Constraint
deriving DecidableEq

/-- The `ValueError`s `solve` can raise before the solver runs: unknown
profile (line 165) and unknown objective (line 175).  The code has no
empty-catalog error of any kind. -/
inductive SolveErr
  | unknownProfile (name : String)
  | unknownObjective (objective : String)
deriving DecidableEq

/-- The objective expression (lines 188-199): one term per `(i, j)` pair, `i`
outer and `j` inner, with coefficient `estimated_cost_usd` under
`"minimize_cost"` and `user_rating` defaulted to 5 under `"maximize_rating"`.
For any other string both branch tests are false and nothing is appended
(unreachable: line 175 raised before this point). -/
def objectiveTerms (o : Optimizer) (objective : String) : List LinTerm :=
  (List.range o.num_meals).flatMap fun i =>
    (List.range o.total_meal_slots).flatMap fun j =>
      if objective = "minimize_cost" then
        [⟨(mealAt o i).estimated_cost_usd, i, j⟩]
      else if objective = "maximize_rating" then
        [⟨((mealAt o i).user_rating).getD 5, i, j⟩]
      else []

/-- Constraint 1 for meal `i` (lines 201-203):
`sum over j of x[i, j] <= max_meals_per_meal`. -/
def capConstraint (o : Optimizer) (max_meals_per_meal : Nat) (i : Nat) : Constraint :=
  ⟨(List.range o.total_meal_slots).map fun j => ⟨1, i, j⟩, .le, max_meals_per_meal⟩

/-- All per-meal cap constraints, in meal-index order. -/
def capConstraints (o : Optimizer) (max_meals_per_meal : Nat) : List Constraint :=
  (List.range o.num_meals).map (capConstraint o max_meals_per_meal)

/-- Constraint 2 for day `day_idx` (lines 206-213): the variables of all meals
`i` and all slots `j = day_idx * meals_per_day + meal_slot` of that day, `i`
outer and `meal_slot` inner, summed and equated to 1. -/
def dayConstraint (o : Optimizer) (day_idx : Nat) : Constraint :=
  ⟨(List.range o.num_meals).flatMap fun i =>
     (List.range o.meals_per_day).map fun meal_slot =>
       ⟨1, i, day_idx * o.meals_per_day + meal_slot⟩,
   .eqc, 1⟩

/-- All exactly-one-per-day constraints, in day order. -/
def dayConstraints (o : Optimizer) : List Constraint :=
  (List.range o.num_days).map (dayConstraint o)

/-- `nutrients_to_process = ["calories"] + self.all_nutrients` (line 221). -/
def nutrients_to_process : List String := "calories" :: all_nutrients

/-- The expression `sum(nutrient_value * x[i, j])` built at lines 239-243 (and
rebuilt identically at lines 251-255). -/
def nutrientTerms (o : Optimizer) (nutrient : String) : List LinTerm :=
  (List.range o.num_meals).flatMap fun i =>
    (List.range o.total_meal_slots).map fun j =>
      ⟨get_nutrient_value (mealAt o i) nutrient, i, j⟩

/-- Constraint 3 block for one `nutrient` of `nutrients_to_process`
(lines 223-259).  `total_meals = 7` is the hardcoded constant of line 218.
Note the code applies `_map_profile_nutrient` to the catalog-side name
`nutrient` and looks the result up in the profile. -/
def nutrientConstraintsFor (o : Optimizer) (profile : Profile) (nutrient : String) :
    List Constraint :=
  match profile.lookup (map_profile_nutrient nutrient) with
  | none => []
  | some b =>
      (if b.min > 0 then [⟨nutrientTerms o nutrient, .ge, b.min * 7⟩] else []) ++
      (match b.max with
       | some m => [⟨nutrientTerms o nutrient, .le, m * 7⟩]
       | none => [])

/-- All nutritional constraints, in the order of `nutrients_to_process`. -/
def nutrientConstraints (o : Optimizer) (profile : Profile) : List Constraint :=
  nutrients_to_process.flatMap (nutrientConstraintsFor o profile)

/-- The term list `[x[i, j] for i ... for j ...]` of line 263. -/
def allPairTerms (o : Optimizer) : List LinTerm :=
  (List.range o.num_meals).flatMap fun i =>
    (List.range o.total_meal_slots).map fun j => ⟨1, i, j⟩

/-- Constraint 4 (lines 261-264): total selections `== 7`, with the literal 7
of the source, not the number of configured days. -/
def totalConstraint (o : Optimizer) : Constraint :=
  ⟨allPairTerms o, .eqc, 7⟩

/-- The full constraint list in `problem +=` order. -/
def allConstraints (o : Optimizer) (profile : Profile) (max_meals_per_meal : Nat) :
    List Constraint :=
  capConstraints o max_meals_per_meal ++ dayConstraints o ++
    nutrientConstraints o profile ++ [totalConstraint o]

/-- The model-building prefix of `solve` (lines 164-264): profile check,
objective check at `LpProblem` creation, then variables, objective and
constraints.  There is no emptiness check on `o.meals` anywhere. -/
def buildModel (o : Optimizer) (profile_name : String) (max_meals_per_meal : Nat)
    (objective : String) : Except SolveErr Model :=
  match o.nutritional_profiles.lookup profile_name with
  | none => .error (.unknownProfile profile_name)
  | some profile =>
      if objective = "minimize_cost" then
        .ok ⟨.minimize, objectiveTerms o objective, allConstraints o profile max_meals_per_meal⟩
      else if objective = "maximize_rating" then
        .ok ⟨.maximize, objectiveTerms o objective, allConstraints o profile max_meals_per_meal⟩
      else
        .error (.unknownObjective objective)

/-- PuLP's `LpStatus` verdicts. -/
inductive LpStatusV
  | Optimal
  | NotSolved
  | Infeasible
  | Unbounded
  | Undefined
deriving DecidableEq

/-- The `LpStatus[problem.status]` strings the code compares against. -/
def lpStatusStr : LpStatusV → String
  | .Optimal => "Optimal"
  | .NotSolved => "Not Solved"
  | .Infeasible => "Infeasible"
  | .Unbounded => "Unbounded"
  | .Undefined => "Undefined"

/-- A raw variable assignment as PuLP exposes it: `x[i, j].varValue`, which can
be `None`. -/
abbrev Assignment := Nat → Nat → Option ℚ

/-- The solver oracle: for attempt index 0 (the `problem.solve()` at line 271)
and 1 (the retry at line 288), the verdict and the variable values it leaves
behind. -/
abbrev Solver := Nat → LpStatusV × Assignment

/-- The solver arguments of the two `problem.solve()` calls: both pass no
solver object at all (lines 271 and 288 are textually identical calls), so
both attempts use the identical default configuration. -/
def solverArg (attempt : Nat) : Option String :=
  match attempt with
  | _ => none

/-- One selected-meal record built at lines 330-335: `day` is the day NAME
`days_of_week[j // meals_per_day]` and `meal_slot` is `j % meals_per_day + 1`
(1-based). -/
structure MealInfo where
  meal : Meal
  day : String
  meal_slot : Nat
  cost : ℚ
deriving DecidableEq

/-- The dictionary `_extract_solution` returns (lines 343-350), with
`nutritional_summary` as a list of `(nutrient, total, average)` triples. -/
structure Solution where
  profile_used : String
  selected_meals : List MealInfo
  meal_schedule : List (String × List MealInfo)
  nutritional_summary : List (String × ℚ × ℚ)
  total_cost : ℚ
  num_meals_selected : Nat
deriving DecidableEq

/-- The record built for a selected pair `(i, j)` (lines 326-335). -/
def selectedEntry (o : Optimizer) (i j : Nat) : MealInfo :=
  ⟨mealAt o i, o.days_of_week.getD (j / o.meals_per_day) "",
   j % o.meals_per_day + 1, (mealAt o i).estimated_cost_usd⟩

/-- The selection test of line 325:
`x[i, j].varValue is not None and x[i, j].varValue > 0.5`. -/
def isSelected (x : Assignment) (i j : Nat) : Bool :=
  match x i j with
  | some v => decide (v > 1 / 2)
  | none => false

/-- The `selected_meals` list of `_extract_solution` (lines 322-337): pairs in
`i`-outer, `j`-inner order, one record per selected pair. -/
def selected_meals_of (o : Optimizer) (x : Assignment) : List MealInfo :=
  (List.range o.num_meals).flatMap fun i =>
    (List.range o.total_meal_slots).flatMap fun j =>
      if isSelected x i j then [selectedEntry o i j] else []

/-- The per-day `meal_schedule` dictionary (lines 318-338): for each configured
day name, the selected records carrying that name, in selection order. -/
def meal_schedule_of (o : Optimizer) (x : Assignment) : List (String × List MealInfo) :=
  o.days_of_week.map fun day =>
    (day, (selected_meals_of o x).filter fun mi => mi.day = day)

/-- `_calculate_nutritional_summary` (lines 352-377): empty for an empty
selection, else per-nutrient `(total, total / count)`. -/
def nutritional_summary_of (selected : List MealInfo) : List (String × ℚ × ℚ) :=
  if selected.isEmpty then []
  else
    ("calories" :: all_nutrients).map fun nutrient =>
      let total := (selected.map fun mi => get_nutrient_value mi.meal nutrient).sum
      (nutrient, total, total / selected.length)

/-- `_extract_solution` (lines 304-350). -/
def extract_solution (o : Optimizer) (x : Assignment) (profile_name : String) : Solution :=
  let selected := selected_meals_of o x
  ⟨profile_name, selected, meal_schedule_of o x, nutritional_summary_of selected,
   (selected.map fun mi => mi.cost).sum, selected.length⟩

/-- `value(problem.objective)`: the objective expression evaluated on the raw
assignment (absent values contribute 0). -/
def objectiveValue (terms : List LinTerm) (x : Assignment) : ℚ :=
  (terms.map fun t => t.coeff * (x t.meal t.slot).getD 0).sum

/-- What `solve` returns after the solver ran: either the extracted solution
dictionary with its `status` / `objective_value` keys set (lines 278-282 and
292-295), or the literal `INFEASIBLE` dictionary of lines 298-302. -/
inductive SolveOutcome
  | success (status : String) (sol : Solution) (objective_value : ℚ)
  | failure (status : String) (message : String) (objective_value : Option ℚ)
deriving DecidableEq

/-- The `"status"` key of the returned dictionary. -/
def SolveOutcome.status : SolveOutcome → String
  | .success s _ _ => s
  | .failure s _ _ => s

/-- A solve run: the returned dictionary plus how many times the backend was
invoked (1 or 2). -/
structure SolveRun where
  outcome : SolveOutcome
  attempts : Nat
deriving DecidableEq

/-- The literal message of line 300. -/
def infeasibleMessage (status : String) : String :=
  "No feasible solution found. Status: " ++ status ++ ". Try relaxing constraints."

/-- The status-dispatch suffix of `solve` (lines 270-302): first attempt; on
`"Optimal"` return the `OPTIMAL` dictionary; on `"Not Solved"` call
`problem.solve()` once more and on `"Optimal"` return the dictionary with
status `FEASIBLE`; every other path falls through to the `INFEASIBLE`
dictionary carrying the last status in its message. -/
def runSolverPhase (o : Optimizer) (profile_name : String) (M : Model)
    (solver : Solver) : SolveRun :=
  if lpStatusStr (solver 0).1 = "Optimal" then
    ⟨.success "OPTIMAL" (extract_solution o (solver 0).2 profile_name)
       (objectiveValue M.objective (solver 0).2), 1⟩
  else if lpStatusStr (solver 0).1 = "Not Solved" then
    if lpStatusStr (solver 1).1 = "Optimal" then
      ⟨.success "FEASIBLE" (extract_solution o (solver 1).2 profile_name)
         (objectiveValue M.objective (solver 1).2), 2⟩
    else
      ⟨.failure "INFEASIBLE" (infeasibleMessage (lpStatusStr (solver 1).1)) none, 2⟩
  else
    ⟨.failure "INFEASIBLE" (infeasibleMessage (lpStatusStr (solver 0).1)) none, 1⟩

/-- `MealOptimizer.solve` (lines 152-302) end to end, with the backend as an
oracle: validation and model construction, then the solver phase. -/
def solve (o : Optimizer) (profile_name : String) (max_meals_per_meal : Nat)
    (objective : String) (solver : Solver) : Except SolveErr SolveRun :=
  (buildModel o profile_name max_meals_per_meal objective).map
    (runSolverPhase o profile_name · solver)

/-! Semantics of constraints over a (total, rational-valued) assignment, used
to state what a constraint forces on any solution the backend could return. -/

/-- The value of a linear expression under an assignment. -/
def evalTerms (x : Nat → Nat → ℚ) (terms : List LinTerm) : ℚ :=
  (terms.map fun t => t.coeff * x t.meal t.slot).sum

/-- An assignment satisfies one constraint. -/
def satisfies (x : Nat → Nat → ℚ) (c : Constraint) : Prop :=
  match c.op with
  | .le => evalTerms x c.terms ≤ c.rhs
  | .ge => evalTerms x c.terms ≥ c.rhs
  | .eqc => evalTerms x c.terms = c.rhs

/-- A 0/1 assignment, as the `cat='Binary'` variables guarantee. -/
def Binary (x : Nat → Nat → ℚ) : Prop := ∀ i j, x i j = 0 ∨ x i j = 1

/-! The `app.py` wrapper `run_optimization` (lines 93-171). -/

/-- Frontend requirements: the JSON body's numeric fields. -/
abbrev Requirements := List (String × ℚ)

/-- `requirements.get(key, default)`. -/
def reqGet (req : Requirements) (key : String) (default : ℚ) : ℚ :=
  (req.lookup key).getD default

/-- The `custom_profile` dictionary of lines 104-157. -/
def custom_profile (req : Requirements) : Profile :=
  [("calories", ⟨reqGet req "minCalories" 300, some (reqGet req "maxCalories" 700)⟩),
   ("protein", ⟨reqGet req "minProtein" 20, some (reqGet req "maxProtein" 35)⟩),
   ("carbs", ⟨reqGet req "minCarbs" 30, some (reqGet req "maxCarbs" 90)⟩),
   ("fat", ⟨reqGet req "minFat" 10, some (reqGet req "maxFat" 25)⟩),
   ("vitaminA", ⟨reqGet req "minVitaminA" 150, some (reqGet req "maxVitaminA" 300)⟩),
   ("vitaminC", ⟨reqGet req "minVitaminC" 15, some (reqGet req "maxVitaminC" 30)⟩),
   ("vitaminD", ⟨reqGet req "minVitaminD" 3, some (reqGet req "maxVitaminD" 8)⟩),
   ("vitaminE", ⟨reqGet req "minVitaminE" 3, some (reqGet req "maxVitaminE" 6)⟩),
   ("calcium", ⟨reqGet req "minCalcium" 200, some (reqGet req "maxCalcium" 400)⟩),
   ("iron", ⟨reqGet req "minIron" 2, some (reqGet req "maxIron" 4)⟩),
   ("magnesium", ⟨reqGet req "minMagnesium" 60, some (reqGet req "maxMagnesium" 120)⟩),
   ("potassium", ⟨reqGet req "minPotassium" 600, some (reqGet req "maxPotassium" 1000)⟩),
   ("sodium", ⟨reqGet req "minSodium" 200, some (reqGet req "maxSodium" 400)⟩)]

/-- Python `d[k] = v` on a dictionary modelled as an association list: replace
in place if the key exists, else append. -/
def insertKey (l : List (String × Profile)) (k : String) (v : Profile) :
    List (String × Profile) :=
  if l.any (fun p => p.1 = k) then
    l.map fun p => if p.1 = k then (k, v) else p
  else l ++ [(k, v)]

/-- Python `del d[k]`. -/
def eraseKey (l : List (String × Profile)) (k : String) : List (String × Profile) :=
  l.filter fun p => ¬ p.1 = k

/-- The optimizer state after line 163,
`optimizer.nutritional_profiles['custom'] = custom_profile`. -/
def insertedOptimizer (o : Optimizer) (req : Requirements) : Optimizer :=
  { o with nutritional_profiles :=
      insertKey o.nutritional_profiles "custom" (custom_profile req) }

/-- `run_optimization` (app.py lines 93-171): insert the `'custom'` profile
into the optimizer's shared registry, run `solve`, then `del` the entry.  When
`solve` raises, the `del` at line 169 never executes and the exception
propagates with the registry still holding `'custom'`; the second component is
the optimizer state afterwards. -/
def run_optimization (o : Optimizer) (req : Requirements) (objective : String)
    (meal_frequency : Nat) (solver : Solver) :
    Except SolveErr SolveRun × Optimizer :=
  match solve (insertedOptimizer o req) "custom" meal_frequency objective solver with
  | .ok r =>
      (.ok r, { insertedOptimizer o req with
        nutritional_profiles :=
          eraseKey (insertedOptimizer o req).nutritional_profiles "custom" })
  | .error e => (.error e, insertedOptimizer o req)

/-! Concrete fixtures used by witnesses and counterexamples. -/

/-- A meal carrying every micro key (as real catalog entries do). -/
def oatsMeal : Meal :=
  ⟨"Oats", 2, 100, ⟨5, 10, 3⟩,
   [("vitamin_a_mcg", 1), ("vitamin_c_mg", 1), ("vitamin_d_mcg", 1), ("vitamin_e_mg", 1),
    ("calcium_mg", 1), ("iron_mg", 1), ("magnesium_mg", 1), ("potassium_mg", 1),
    ("sodium_mg", 1), ("zinc_mg", 1)], none⟩

/-- One meal, one day, one slot per day, a profile with no bounds. -/
def oOne : Optimizer := ⟨[oatsMeal], [("p", [])], ["Monday"], 1⟩

/-- One meal over a two-day schedule, profile keyed by the profile-facing
name `vitaminA` with `min = 1 > 0` and finite `max = 2`. -/
def oTwoDays : Optimizer :=
  ⟨[oatsMeal], [("p", [("vitaminA", ⟨1, some 2⟩)])], ["Monday", "Tuesday"], 1⟩

/-- One meal over a two-day schedule, profile keyed by the catalog-side name
`calories` with `min = 1 > 0` and no upper bound. -/
def oCal : Optimizer :=
  ⟨[oatsMeal], [("q", [("calories", ⟨1, none⟩)])], ["Monday", "Tuesday"], 1⟩

/-- Zero meals in the catalog. -/
def oEmpty : Optimizer := ⟨[], [("p", [])], ["Monday"], 1⟩

/-- An oracle whose attempts all come back `Optimal` with no values set. -/
def solverOpt : Solver := fun _ => (.Optimal, fun _ _ => none)

/-- An oracle whose attempts all come back `Not Solved`. -/
def solverNotSolved : Solver := fun _ => (.NotSolved, fun _ _ => none)

/-- An oracle whose attempts all come back `Infeasible`. -/
def solverInfeasible : Solver := fun _ => (.Infeasible, fun _ _ => none)

/-- The model `solve` builds for `oOne` under `minimize_cost` with cap 2. -/
def modelOne : Model :=
  ⟨.minimize, objectiveTerms oOne "minimize_cost", allConstraints oOne [] 2⟩

/-- The model `solve` builds for `oCal` under `minimize_cost` with cap 2. -/
def modelCal : Model :=
  ⟨.minimize, objectiveTerms oCal "minimize_cost",
   allConstraints oCal [("calories", ⟨1, none⟩)] 2⟩

/-- The raw assignment that selects exactly the pair `(0, 0)` with value 1. -/
def xSel : Assignment := fun i j => if i = 0 ∧ j = 0 then some 1 else none

/-- `oEmpty` with the default `'custom'` profile inserted. -/
def oW1 : Optimizer := insertedOptimizer oEmpty []

/-- The model `solve` builds for `oW1` under the `'custom'` profile. -/
def modelW : Model :=
  ⟨.minimize, objectiveTerms oW1 "minimize_cost", allConstraints oW1 (custom_profile []) 2⟩

/-- The run `solve` performs on `oW1` with an all-`Optimal` oracle. -/
def okRunW : SolveRun := runSolverPhase oW1 "custom" modelW solverOpt

/-- All `(meal, slot)` index pairs, in the loop order of the code. -/
def allIndexPairs (o : Optimizer) : List (Nat × Nat) :=
  (List.range o.num_meals).flatMap fun i =>
    (List.range o.total_meal_slots).map fun j => (i, j)

/-! Helper lemmas. -/

lemma buildModel_ok_inv {o : Optimizer} {pname : String} {cap : Nat} {obj : String}
    {M : Model} (hM : buildModel o pname cap obj = .ok M) :
    ∃ prof, o.nutritional_profiles.lookup pname = some prof ∧
      M.constraints = allConstraints o prof cap := by
  unfold buildModel at hM
  split at hM
  · exact absurd hM (by simp)
  · rename_i prof heq
    refine ⟨prof, heq, ?_⟩
    split at hM
    · cases hM; rfl
    · split at hM
      · cases hM; rfl
      · exact absurd hM (by simp)

lemma mem_allConstraints_cap {o : Optimizer} {prof : Profile} {cap i : Nat}
    (hi : i < o.num_meals) :
    capConstraint o cap i ∈ allConstraints o prof cap := by
  have : capConstraint o cap i ∈ capConstraints o cap := by
    exact List.mem_map.2 ⟨i, List.mem_range.2 hi, rfl⟩
  simp [allConstraints, this]

lemma mem_allConstraints_day {o : Optimizer} {prof : Profile} {cap d : Nat}
    (hd : d < o.num_days) :
    dayConstraint o d ∈ allConstraints o prof cap := by
  have : dayConstraint o d ∈ dayConstraints o := by
    exact List.mem_map.2 ⟨d, List.mem_range.2 hd, rfl⟩
  simp [allConstraints, this]

lemma mem_allConstraints_total {o : Optimizer} {prof : Profile} {cap : Nat} :
    totalConstraint o ∈ allConstraints o prof cap := by
  simp [allConstraints]

lemma mem_allConstraints_nutrient {o : Optimizer} {prof : Profile} {cap : Nat}
    {n : String} {c : Constraint} (hn : n ∈ nutrients_to_process)
    (hc : c ∈ nutrientConstraintsFor o prof n) :
    c ∈ allConstraints o prof cap := by
  have : c ∈ nutrientConstraints o prof :=
    List.mem_flatMap.2 ⟨n, hn, hc⟩
  simp [allConstraints, this]

lemma sum_zero_one (l : List ℚ) (h : ∀ v ∈ l, v = 0 ∨ v = 1) :
    l.sum = ((l.filter fun v => decide (v = 1)).length : ℚ) := by
  induction l with
  | nil => simp
  | cons a t ih =>
      have ht : ∀ v ∈ t, v = 0 ∨ v = 1 := fun v hv => h v (List.mem_cons_of_mem a hv)
      rcases h a (List.mem_cons_self a t) with ha | ha <;>
        simp [List.filter_cons, ha, ih ht, add_comm]

lemma length_filter_map {α : Type} (g : α → ℚ) (l : List α) :
    ((l.map g).filter fun v => decide (v = 1)).length =
      (l.filter fun t => decide (g t = 1)).length := by
  induction l with
  | nil => rfl
  | cons a t ih => by_cases h : g a = 1 <;> simp [List.filter_cons, h, ih]

lemma evalTerms_eq_count (x : Nat → Nat → ℚ) (hB : Binary x) (ts : List LinTerm)
    (h1 : ∀ t ∈ ts, t.coeff = 1) :
    evalTerms x ts = ((ts.filter fun t => decide (x t.meal t.slot = 1)).length : ℚ) := by
  have hmap : ts.map (fun t => t.coeff * x t.meal t.slot) =
      ts.map fun t => x t.meal t.slot := by
    refine List.map_congr_left fun t ht => ?_
    rw [h1 t ht, one_mul]
  have hvals : ∀ v ∈ ts.map fun t => x t.meal t.slot, v = 0 ∨ v = 1 := by
    intro v hv
    rcases List.mem_map.1 hv with ⟨t, _, rfl⟩
    exact hB t.meal t.slot
  rw [evalTerms, hmap, sum_zero_one _ hvals, length_filter_map]

lemma dayConstraint_coeffs {o : Optimizer} {d : Nat} :
    ∀ t ∈ (dayConstraint o d).terms, t.coeff = 1 := by
  intro t ht
  simp only [dayConstraint, List.mem_flatMap, List.mem_map, List.mem_range] at ht
  rcases ht with ⟨i, _, s, _, rfl⟩
  rfl

lemma capConstraint_coeffs {o : Optimizer} {cap i : Nat} :
    ∀ t ∈ (capConstraint o cap i).terms, t.coeff = 1 := by
  intro t ht
  simp only [capConstraint, List.mem_map, List.mem_range] at ht
  rcases ht with ⟨j, _, rfl⟩
  rfl

lemma allPairTerms_coeffs {o : Optimizer} :
    ∀ t ∈ allPairTerms o, t.coeff = 1 := by
  intro t ht
  simp only [allPairTerms, List.mem_flatMap, List.mem_map, List.mem_range] at ht
  rcases ht with ⟨i, _, j, _, rfl⟩
  rfl

lemma length_flatMap_if {α β : Type} (l : List α) (f : α → Bool) (g : α → β) :
    (l.flatMap fun a => if f a then [g a] else []).length = (l.filter f).length := by
  induction l with
  | nil => rfl
  | cons a t ih => by_cases h : f a <;> simp [List.filter_cons, h, ih]

lemma filter_map_length {α β : Type} (l : List α) (f : α → β) (p : β → Bool) :
    ((l.map f).filter p).length = (l.filter fun a => p (f a)).length := by
  induction l with
  | nil => rfl
  | cons a t ih => by_cases h : p (f a) <;> simp [List.filter_cons, h, ih]

lemma filter_flatMap_local {α β : Type} (l : List α) (f : α → List β) (p : β → Bool) :
    ((l.flatMap f).filter p) = l.flatMap fun a => (f a).filter p := by
  induction l with
  | nil => rfl
  | cons a t ih => simp [List.flatMap_cons, List.filter_append, ih]

lemma selected_meals_length (o : Optimizer) (x : Assignment) :
    (selected_meals_of o x).length =
      ((allIndexPairs o).filter fun p => isSelected x p.1 p.2).length := by
  unfold selected_meals_of allIndexPairs
  rw [filter_flatMap_local, List.length_flatMap, List.length_flatMap]
  congr 1
  refine List.map_congr_left fun i _ => ?_
  simp only [Function.comp_apply]
  rw [length_flatMap_if, filter_map_length]

lemma lookup_cons_ne {β : Type} (k x : String) (v : β) (t : List (String × β))
    (h : k ≠ x) : List.lookup k ((x, v) :: t) = List.lookup k t := by
  have hb : (k == x) = false := beq_eq_false_iff_ne.mpr h
  simp [List.lookup_cons, hb]

lemma lookup_cons_self {β : Type} (k : String) (v : β) (t : List (String × β)) :
    List.lookup k ((k, v) :: t) = some v := by
  simp [List.lookup_cons]

lemma lookup_eraseKey_self (l : List (String × Profile)) (k : String) :
    (eraseKey l k).lookup k = none := by
  induction l with
  | nil => rfl
  | cons a t ih =>
      rcases a with ⟨x, v⟩
      by_cases h : x = k
      · simpa [eraseKey, List.filter_cons, h] using ih
      · have he : eraseKey ((x, v) :: t) k = (x, v) :: eraseKey t k := by
          simp [eraseKey, List.filter_cons, h]
        rw [he, lookup_cons_ne _ _ _ _ fun hh => h hh.symm, ih]

lemma lookup_eraseKey_ne (l : List (String × Profile)) (k k2 : String) (h : k2 ≠ k) :
    (eraseKey l k).lookup k2 = l.lookup k2 := by
  induction l with
  | nil => rfl
  | cons a t ih =>
      rcases a with ⟨x, v⟩
      by_cases hx : x = k
      · subst hx
        have he : eraseKey ((x, v) :: t) x = eraseKey t x := by
          simp [eraseKey, List.filter_cons]
        rw [he, ih, lookup_cons_ne _ _ _ _ h]
      · have he : eraseKey ((x, v) :: t) k = (x, v) :: eraseKey t k := by
          simp [eraseKey, List.filter_cons, hx]
        by_cases hx2 : k2 = x
        · subst hx2
          rw [he, lookup_cons_self, lookup_cons_self]
        · rw [he, lookup_cons_ne _ _ _ _ hx2, lookup_cons_ne _ _ _ _ hx2, ih]

lemma lookup_insertKey_self (l : List (String × Profile)) (k : String) (v : Profile) :
    (insertKey l k v).lookup k = some v := by
  unfold insertKey
  split
  · rename_i hany
    induction l with
    | nil => simp at hany
    | cons a t ih =>
        rcases a with ⟨x, w⟩
        by_cases hx : x = k
        · simp only [List.map_cons, hx, if_pos rfl]
          exact lookup_cons_self k v _
        · simp only [List.map_cons, if_neg hx]
          rw [lookup_cons_ne _ _ _ _ fun hh => hx hh.symm]
          refine ih ?_
          simpa [hx] using hany
  · rename_i hany
    induction l with
    | nil => exact lookup_cons_self k v []
    | cons a t ih =>
        rcases a with ⟨x, w⟩
        have hx : ¬ x = k := by
          intro hh
          exact hany (by simp [hh])
        have ht : ¬ t.any (fun p => p.1 = k) = true := by
          intro hh
          exact hany (by simp [hh])
        rw [List.cons_append, lookup_cons_ne _ _ _ _ fun hh => hx hh.symm]
        exact ih ht

lemma lookup_insertKey_ne (l : List (String × Profile)) (k : String) (v : Profile)
    (k2 : String) (h : k2 ≠ k) :
    (insertKey l k v).lookup k2 = l.lookup k2 := by
  unfold insertKey
  split
  · rename_i hany
    clear hany
    induction l with
    | nil => rfl
    | cons a t ih =>
        rcases a with ⟨x, w⟩
        rw [List.map_cons]
        by_cases hx : x = k
        · subst hx
          rw [if_pos rfl, lookup_cons_ne _ _ _ _ h, lookup_cons_ne _ _ _ _ h, ih]
        · rw [if_neg hx]
          by_cases hx2 : k2 = x
          · subst hx2
            rw [lookup_cons_self, lookup_cons_self]
          · rw [lookup_cons_ne _ _ _ _ hx2, lookup_cons_ne _ _ _ _ hx2, ih]
  · rename_i hany
    clear hany
    induction l with
    | nil => simpa using lookup_cons_ne k2 k v [] h
    | cons a t ih =>
        rcases a with ⟨x, w⟩
        by_cases hx2 : k2 = x
        · subst hx2
          rw [List.cons_append, lookup_cons_self, lookup_cons_self]
        · rw [List.cons_append, lookup_cons_ne _ _ _ _ hx2, lookup_cons_ne _ _ _ _ hx2, ih]

lemma map_profile_nutrient_cases (s : String) :
    map_profile_nutrient s = s ∨ map_profile_nutrient s ∈ mappingImages := by
  unfold map_profile_nutrient
  split_ifs <;> first
  | exact Or.inl rfl
  | exact Or.inr (by decide)

lemma map_profile_nutrient_fixes_images :
    ∀ v ∈ mappingImages, map_profile_nutrient v = v := by decide

/-! The claims. -/

/-- Claim C9: the profile-to-catalog nutrient name mapping
`_map_profile_nutrient` is idempotent: every image of the mapping table is a
fixed point, and unmapped names pass through unchanged, so mapping twice
equals mapping once. -/
theorem c9_map_profile_nutrient_idempotent (s : String) :
    map_profile_nutrient (map_profile_nutrient s) = map_profile_nutrient s := by
  rcases map_profile_nutrient_cases s with h | h
  · rw [h]; exact h
  · exact map_profile_nutrient_fixes_images _ h

/-- Claim C8: for a profile name that is in the registry and an objective
other than `"minimize_cost"` and `"maximize_rating"`, `solve` raises the
unknown-objective `ValueError` of line 175.  The error comes out of
`buildModel`, the phase before any decision variable (any `Model`) exists:
in the source the `raise` sits at `LpProblem` creation, before the `x`
variables of lines 180-183 are created. -/
theorem c8_unknown_objective (o : Optimizer) (pname : String) (cap : Nat)
    (obj : String) (solver : Solver) (prof : Profile)
    (hp : o.nutritional_profiles.lookup pname = some prof)
    (h1 : obj ≠ "minimize_cost") (h2 : obj ≠ "maximize_rating") :
    buildModel o pname cap obj = .error (.unknownObjective obj) ∧
    solve o pname cap obj solver = .error (.unknownObjective obj) := by
  have hb : buildModel o pname cap obj = .error (.unknownObjective obj) := by
    unfold buildModel
    split
    · rename_i heq
      rw [hp] at heq
      cases heq
    · rw [if_neg h1, if_neg h2]
  exact ⟨hb, by rw [solve, hb]; rfl⟩

/-- Witness for C8 at a concrete registry and the unknown objective
`"maximize_cost"`. -/
theorem c8_unknown_objective_witness :
    buildModel oOne "p" 2 "maximize_cost" = .error (.unknownObjective "maximize_cost") ∧
    solve oOne "p" 2 "maximize_cost" solverOpt = .error (.unknownObjective "maximize_cost") :=
  c8_unknown_objective oOne "p" 2 "maximize_cost" solverOpt [] rfl
    (by decide) (by decide)

/-- Claim C5: for every day `d` of the schedule, the built model contains the
day constraint equating to 1 the sum of the variables of all meals and all
slots within day `d`'s slot range (the terms are characterized exactly), and
any binary assignment satisfying that constraint selects exactly one
`(meal, slot)` pair of that range. -/
theorem c5_exactly_one_per_day (o : Optimizer) (pname : String) (cap : Nat)
    (obj : String) (M : Model) (hM : buildModel o pname cap obj = .ok M)
    (d : Nat) (hd : d < o.num_days) :
    dayConstraint o d ∈ M.constraints ∧
    (∀ t, t ∈ (dayConstraint o d).terms ↔
      ∃ i < o.num_meals, ∃ s < o.meals_per_day,
        t = LinTerm.mk 1 i (d * o.meals_per_day + s)) ∧
    (∀ x, Binary x → satisfies x (dayConstraint o d) →
      ((dayConstraint o d).terms.filter fun t =>
        decide (x t.meal t.slot = 1)).length = 1) := by
  obtain ⟨prof, hp, hc⟩ := buildModel_ok_inv hM
  refine ⟨by rw [hc]; exact mem_allConstraints_day hd, ?_, ?_⟩
  · intro t
    simp only [dayConstraint, List.mem_flatMap, List.mem_map, List.mem_range]
    constructor
    · rintro ⟨i, hi, s, hs, rfl⟩
      exact ⟨i, hi, s, hs, rfl⟩
    · rintro ⟨i, hi, s, hs, rfl⟩
      exact ⟨i, hi, s, hs, rfl⟩
  · intro x hB hs
    have hcount := evalTerms_eq_count x hB (dayConstraint o d).terms
      (@dayConstraint_coeffs o d)
    have heq : evalTerms x (dayConstraint o d).terms = 1 := hs
    rw [hcount] at heq
    exact_mod_cast heq

/-- Witness for C5 on the one-meal one-day fixture. -/
theorem c5_exactly_one_per_day_witness :
    dayConstraint oOne 0 ∈ modelOne.constraints ∧
    (∀ t, t ∈ (dayConstraint oOne 0).terms ↔
      ∃ i < oOne.num_meals, ∃ s < oOne.meals_per_day,
        t = LinTerm.mk 1 i (0 * oOne.meals_per_day + s)) ∧
    (∀ x, Binary x → satisfies x (dayConstraint oOne 0) →
      ((dayConstraint oOne 0).terms.filter fun t =>
        decide (x t.meal t.slot = 1)).length = 1) :=
  c5_exactly_one_per_day oOne "p" 2 "minimize_cost" modelOne rfl 0 (by decide)

/-- Claim C6: for every meal `i` and cap `m ≥ 1`, the built model contains
the constraint that the sum over all slots of `x[i, j]` is at most `m`; any
binary assignment satisfying it selects meal `i` at most `m` times. -/
theorem c6_meal_repetition_cap (o : Optimizer) (pname : String) (cap : Nat)
    (obj : String) (M : Model) (hM : buildModel o pname cap obj = .ok M)
    (_hcap : 1 ≤ cap) (i : Nat) (hi : i < o.num_meals) :
    capConstraint o cap i ∈ M.constraints ∧
    (∀ x, Binary x → satisfies x (capConstraint o cap i) →
      ((capConstraint o cap i).terms.filter fun t =>
        decide (x t.meal t.slot = 1)).length ≤ cap) := by
  obtain ⟨prof, hp, hc⟩ := buildModel_ok_inv hM
  refine ⟨by rw [hc]; exact mem_allConstraints_cap hi, ?_⟩
  intro x hB hs
  have hcount := evalTerms_eq_count x hB (capConstraint o cap i).terms
    (@capConstraint_coeffs o cap i)
  have hle : evalTerms x (capConstraint o cap i).terms ≤ (cap : ℚ) := hs
  rw [hcount] at hle
  exact_mod_cast hle

/-- Witness for C6 on the one-meal one-day fixture with cap 2. -/
theorem c6_meal_repetition_cap_witness :
    capConstraint oOne 2 0 ∈ modelOne.constraints ∧
    (∀ x, Binary x → satisfies x (capConstraint oOne 2 0) →
      ((capConstraint oOne 2 0).terms.filter fun t =>
        decide (x t.meal t.slot = 1)).length ≤ 2) :=
  c6_meal_repetition_cap oOne "p" 2 "minimize_cost" modelOne rfl
    (by decide) 0 (by decide)

/-- Claim C4 counterexample: on a two-day schedule the only equality
constraint over the full variable matrix is the total-count cross-check,
and its right-hand side is the literal 7 of line 264, not the number of
days D = 2 the claim requires. -/
theorem c4_total_count_counterexample :
    oTwoDays.num_days = 2 ∧
    (buildModel oTwoDays "p" 2 "minimize_cost").map
        (fun M => M.constraints.filter fun c =>
          decide (c.terms = allPairTerms oTwoDays ∧ c.op = CmpOp.eqc)) =
      .ok [⟨allPairTerms oTwoDays, .eqc, 7⟩] ∧
    ¬ ((7 : ℚ) = 2) := by
  refine ⟨rfl, ?_, by norm_num⟩
  rfl

/-- Claim C4, amended: the built model always contains the cross-check
constraint forcing the total number of selections to equal the hardcoded
constant 7 (which coincides with D only for a 7-day schedule); any binary
assignment satisfying it selects exactly 7 pairs. -/
theorem c4_total_count_amended (o : Optimizer) (pname : String) (cap : Nat)
    (obj : String) (M : Model) (hM : buildModel o pname cap obj = .ok M) :
    totalConstraint o ∈ M.constraints ∧
    (totalConstraint o).rhs = 7 ∧
    (∀ x, Binary x → satisfies x (totalConstraint o) →
      ((totalConstraint o).terms.filter fun t =>
        decide (x t.meal t.slot = 1)).length = 7) := by
  obtain ⟨prof, hp, hc⟩ := buildModel_ok_inv hM
  refine ⟨by rw [hc]; exact mem_allConstraints_total, rfl, ?_⟩
  intro x hB hs
  have hcount := evalTerms_eq_count x hB (totalConstraint o).terms
    (@allPairTerms_coeffs o)
  have heq : evalTerms x (totalConstraint o).terms = 7 := hs
  rw [hcount] at heq
  exact_mod_cast heq

/-- Witness for the amended C4 on the one-meal one-day fixture. -/
theorem c4_total_count_amended_witness :
    totalConstraint oOne ∈ modelOne.constraints ∧
    (totalConstraint oOne).rhs = 7 ∧
    (∀ x, Binary x → satisfies x (totalConstraint oOne) →
      ((totalConstraint oOne).terms.filter fun t =>
        decide (x t.meal t.slot = 1)).length = 7) :=
  c4_total_count_amended oOne "p" 2 "minimize_cost" modelOne rfl

/-- Claim C2 counterexample.  First half: the profile of `oTwoDays` names
`vitaminA`, which maps to the known catalog nutrient `vitamin_a_mcg` and has
`min = 1 > 0`, yet the built model contains no lower-bound (`≥`) constraint
at all, because line 224 applies the mapping to the catalog-side name (on
which it is the identity) and looks that up in the profile.  Second half:
for a profile keyed by the catalog-side name `calories` with `min = 1` on a
two-day schedule, the single lower bound produced has right-hand side
`1 * 7` (the hardcoded `total_meals = 7` of line 218), not `min * D = 1 * 2`. -/
theorem c2_nutrient_bounds_counterexample :
    (map_profile_nutrient "vitaminA" = "vitamin_a_mcg" ∧
     "vitamin_a_mcg" ∈ all_nutrients ∧
     ((oTwoDays.nutritional_profiles.lookup "p").getD []).lookup "vitaminA" =
       some ⟨1, some 2⟩ ∧
     (0 : ℚ) < 1 ∧
     (buildModel oTwoDays "p" 2 "minimize_cost").map
         (fun M => M.constraints.filter fun c => decide (c.op = CmpOp.ge)) =
       .ok []) ∧
    (oCal.num_days = 2 ∧
     (buildModel oCal "q" 2 "minimize_cost").map
         (fun M => (M.constraints.filter fun c =>
           decide (c.op = CmpOp.ge)).map Constraint.rhs) =
       .ok [1 * 7] ∧
     ¬ ((1 * 7 : ℚ) = 1 * 2)) := by
  exact ⟨⟨rfl, by decide, rfl, by decide, rfl⟩, ⟨rfl, rfl, by norm_num⟩⟩

/-- Claim C2, amended: the constraint-3 loop runs over the fixed catalog-side
list `["calories"] + all_nutrients` and looks each name up in the profile
after applying `_map_profile_nutrient` (the identity on all these names).
When the lookup hits bounds `b`, the model contains the lower bound
`sum ≥ b.min * 7` iff `b.min > 0` and the upper bound `sum ≤ q * 7` iff
`b.max = q` is finite — the multiplier is the hardcoded 7, not the number of
days; when `b.min = 0` and `b.max` is infinite, or when the lookup misses
(as it does for profile-facing keys such as `vitaminA`), no constraint is
added for that nutrient. -/
theorem c2_nutrient_bounds_amended (o : Optimizer) (pname : String) (cap : Nat)
    (obj : String) (M : Model) (prof : Profile)
    (hp : o.nutritional_profiles.lookup pname = some prof)
    (hM : buildModel o pname cap obj = .ok M)
    (n : String) (hn : n ∈ nutrients_to_process) :
    (∀ b, prof.lookup (map_profile_nutrient n) = some b →
      (0 < b.min →
        (⟨nutrientTerms o n, .ge, b.min * 7⟩ : Constraint) ∈ M.constraints) ∧
      (∀ q, b.max = some q →
        (⟨nutrientTerms o n, .le, q * 7⟩ : Constraint) ∈ M.constraints) ∧
      (b.min = 0 → b.max = none → nutrientConstraintsFor o prof n = [])) ∧
    (prof.lookup (map_profile_nutrient n) = none →
      nutrientConstraintsFor o prof n = []) := by
  obtain ⟨prof2, hp2, hc⟩ := buildModel_ok_inv hM
  rw [hp] at hp2
  cases hp2
  constructor
  · intro b hb
    refine ⟨?_, ?_, ?_⟩
    · intro hmin
      rw [hc]
      refine mem_allConstraints_nutrient hn ?_
      unfold nutrientConstraintsFor
      rw [hb]
      simp [hmin]
    · intro q hq
      rw [hc]
      refine mem_allConstraints_nutrient hn ?_
      unfold nutrientConstraintsFor
      rw [hb]
      simp [hq]
    · intro h0 hnone
      unfold nutrientConstraintsFor
      rw [hb]
      simp [h0, hnone]
  · intro hnone
    unfold nutrientConstraintsFor
    rw [hnone]

/-- Witness for the amended C2 on `oCal` at the nutrient `calories`. -/
theorem c2_nutrient_bounds_amended_witness :
    (∀ b, ([("calories", (⟨1, none⟩ : Bounds))] : Profile).lookup
        (map_profile_nutrient "calories") = some b →
      (0 < b.min →
        (⟨nutrientTerms oCal "calories", .ge, b.min * 7⟩ : Constraint) ∈
          modelCal.constraints) ∧
      (∀ q, b.max = some q →
        (⟨nutrientTerms oCal "calories", .le, q * 7⟩ : Constraint) ∈
          modelCal.constraints) ∧
      (b.min = 0 → b.max = none →
        nutrientConstraintsFor oCal [("calories", ⟨1, none⟩)] "calories" = [])) ∧
    (([("calories", (⟨1, none⟩ : Bounds))] : Profile).lookup
        (map_profile_nutrient "calories") = none →
      nutrientConstraintsFor oCal [("calories", ⟨1, none⟩)] "calories" = []) :=
  c2_nutrient_bounds_amended oCal "q" 2 "minimize_cost" modelCal
    [("calories", ⟨1, none⟩)] rfl rfl "calories" (by decide)

/-- Claim C1 counterexample: `solve` has no empty-catalog check at all.  With
zero meals and a valid profile the model is still built (no error of any
kind is raised before the solver runs), and when the backend then reports
`Infeasible` the caller receives the ordinary `INFEASIBLE` outcome — the
opposite of the claimed `ModelError(EmptyCatalog)`-before-the-solver. -/
theorem c1_empty_catalog_counterexample :
    oEmpty.meals.length = 0 ∧
    (buildModel oEmpty "p" 2 "minimize_cost").isOk = true ∧
    (solve oEmpty "p" 2 "minimize_cost" solverInfeasible).map
        (fun r => r.outcome.status) = .ok "INFEASIBLE" := by
  exact ⟨rfl, rfl, rfl⟩

lemma buildModel_known_objectives {o : Optimizer} {pname : String} {cap : Nat}
    {prof : Profile} (hp : o.nutritional_profiles.lookup pname = some prof) :
    buildModel o pname cap "minimize_cost" =
      .ok ⟨.minimize, objectiveTerms o "minimize_cost", allConstraints o prof cap⟩ ∧
    buildModel o pname cap "maximize_rating" =
      .ok ⟨.maximize, objectiveTerms o "maximize_rating", allConstraints o prof cap⟩ := by
  constructor <;>
  · unfold buildModel
    split
    · rename_i heq
      rw [hp] at heq
      cases heq
    · rename_i prof2 heq
      rw [hp] at heq
      cases heq
      simp

/-- Claim C1, amended: with a catalog of zero meals (and a registered
profile and known objective), `solve` raises no error: the model is built
anyway, it contains the day-0 constraint whose term list is empty and whose
right-hand side is 1 — unsatisfiable by every assignment — the solver is
invoked on it, and an `Infeasible` verdict is reported as the ordinary
`INFEASIBLE` outcome. -/
theorem c1_empty_catalog_amended (o : Optimizer) (pname : String) (prof : Profile)
    (cap : Nat) (obj : String) (solver : Solver)
    (hp : o.nutritional_profiles.lookup pname = some prof)
    (hm : o.meals = []) (hd : 0 < o.num_days)
    (hobj : obj = "minimize_cost" ∨ obj = "maximize_rating") :
    ∃ M, buildModel o pname cap obj = .ok M ∧
      dayConstraint o 0 ∈ M.constraints ∧
      (dayConstraint o 0).terms = [] ∧
      (∀ x, ¬ satisfies x (dayConstraint o 0)) ∧
      ((solver 0).1 = .Infeasible →
        (solve o pname cap obj solver).map (fun r => r.outcome.status) =
          .ok "INFEASIBLE") := by
  have hnm : o.num_meals = 0 := by simp [Optimizer.num_meals, hm]
  have hterms : (dayConstraint o 0).terms = [] := by
    simp [dayConstraint, hnm]
  have hsat : ∀ x, ¬ satisfies x (dayConstraint o 0) := by
    intro x hx
    have h1 : evalTerms x (dayConstraint o 0).terms = 1 := hx
    rw [hterms] at h1
    simp [evalTerms] at h1
  have hsolver : ∀ M, buildModel o pname cap obj = .ok M →
      (solver 0).1 = .Infeasible →
      (solve o pname cap obj solver).map (fun r => r.outcome.status) =
        .ok "INFEASIBLE" := by
    intro M hbuild h0
    have h0s : lpStatusStr (solver 0).1 = "Infeasible" := by rw [h0]; rfl
    rw [solve, hbuild]
    simp only [Except.map]
    unfold runSolverPhase
    rw [h0s, if_neg (by decide), if_neg (by decide)]
    rfl
  rcases hobj with h | h <;> subst h
  · exact ⟨_, (buildModel_known_objectives hp).1,
      mem_allConstraints_day hd, hterms, hsat,
      hsolver _ (buildModel_known_objectives hp).1⟩
  · exact ⟨_, (buildModel_known_objectives hp).2,
      mem_allConstraints_day hd, hterms, hsat,
      hsolver _ (buildModel_known_objectives hp).2⟩

/-- Witness for the amended C1 on the zero-meal fixture. -/
theorem c1_empty_catalog_amended_witness :
    ∃ M, buildModel oEmpty "p" 2 "minimize_cost" = .ok M ∧
      dayConstraint oEmpty 0 ∈ M.constraints ∧
      (dayConstraint oEmpty 0).terms = [] ∧
      (∀ x, ¬ satisfies x (dayConstraint oEmpty 0)) ∧
      ((solverInfeasible 0).1 = .Infeasible →
        (solve oEmpty "p" 2 "minimize_cost" solverInfeasible).map
            (fun r => r.outcome.status) = .ok "INFEASIBLE") :=
  c1_empty_catalog_amended oEmpty "p" [] 2 "minimize_cost" solverInfeasible
    rfl rfl (by decide) (Or.inl rfl)

/-- Claim C3 counterexample: the two `problem.solve()` invocations pass the
identical (absent) solver argument — there is no distinct fallback
configuration — and when both attempts come back `Not Solved` the caller
receives status `"INFEASIBLE"`, exactly the status a genuinely infeasible
model yields (shown alongside), not a `SolverError` distinct from
infeasibility. -/
theorem c3_retry_counterexample :
    solverArg 0 = solverArg 1 ∧
    (solve oOne "p" 2 "minimize_cost" solverNotSolved).map
        (fun r => (r.outcome.status, r.attempts)) = .ok ("INFEASIBLE", 2) ∧
    (solve oOne "p" 2 "minimize_cost" solverInfeasible).map
        (fun r => (r.outcome.status, r.attempts)) = .ok ("INFEASIBLE", 1) := by
  exact ⟨rfl, rfl, rfl⟩

/-- Claim C3, amended: on a first `"Not Solved"` verdict, `solve` retries
exactly once (two attempts total) by re-invoking the solver with the same
default configuration; if the retry is again not `"Optimal"`, the outcome is
the ordinary `INFEASIBLE`-status dictionary with the final solver status
embedded in its message — not a `SolverError` distinct from infeasibility. -/
theorem c3_retry_amended (o : Optimizer) (pname : String) (cap : Nat)
    (obj : String) (M : Model) (solver : Solver)
    (hM : buildModel o pname cap obj = .ok M)
    (h0 : (solver 0).1 = .NotSolved)
    (h1 : lpStatusStr (solver 1).1 ≠ "Optimal") :
    solverArg 0 = solverArg 1 ∧
    solve o pname cap obj solver =
      .ok ⟨.failure "INFEASIBLE"
        (infeasibleMessage (lpStatusStr (solver 1).1)) none, 2⟩ := by
  refine ⟨rfl, ?_⟩
  have h0s : lpStatusStr (solver 0).1 = "Not Solved" := by rw [h0]; rfl
  rw [solve, hM]
  simp only [Except.map]
  unfold runSolverPhase
  rw [h0s, if_neg (by decide), if_pos rfl, if_neg h1]

/-- Witness for the amended C3 with an oracle that never reaches a verdict. -/
theorem c3_retry_amended_witness :
    solverArg 0 = solverArg 1 ∧
    solve oOne "p" 2 "minimize_cost" solverNotSolved =
      .ok ⟨.failure "INFEASIBLE"
        (infeasibleMessage (lpStatusStr (solverNotSolved 1).1)) none, 2⟩ :=
  c3_retry_amended oOne "p" 2 "minimize_cost" modelOne solverNotSolved rfl rfl
    (by decide)

/-- Claim C7 counterexample: for the single selected pair `(0, 0)` on a
1-slot-per-day schedule, the recorded entry's slot field is
`0 % slotsPerDay + 1 = 1` (the code stores the 1-based `meal_idx + 1` at line
333), not the claimed slot index `j mod slotsPerDay = 0`. -/
theorem c7_extraction_counterexample :
    isSelected xSel 0 0 = true ∧
    ((extract_solution oOne xSel "p").selected_meals.map fun mi => mi.meal_slot) = [1] ∧
    (0 : Nat) % oOne.meals_per_day = 0 ∧
    ¬ ((1 : Nat) = 0) := by
  have hsel : isSelected xSel 0 0 = true := by
    simp only [isSelected, xSel, if_pos (And.intro rfl rfl), decide_eq_true_eq]
    norm_num
  refine ⟨hsel, ?_, rfl, by decide⟩
  have hlist : selected_meals_of oOne xSel = [selectedEntry oOne 0 0] := by
    show (List.range oOne.num_meals).flatMap _ = _
    have h1 : oOne.num_meals = 1 := rfl
    have h2 : oOne.total_meal_slots = 1 := rfl
    rw [h1, h2]
    simp [List.range_succ, hsel]
  show (selected_meals_of oOne xSel).map _ = _
  rw [hlist]
  rfl

/-- Claim C7, amended: during extraction every pair `(i, j)` with a present
assignment value above the `0.5` threshold yields exactly one selection entry
— present in the list, every list member arising this way, and the list
length equalling the number of selected pairs — whose fields are the meal,
the day name at index `j / slotsPerDay`, the 1-based slot `j % slotsPerDay + 1`
(not the plain slot index), and the meal's cost; pairs with an absent or
below-threshold value yield no entry. -/
theorem c7_extraction_amended (o : Optimizer) (x : Assignment) (pname : String) :
    (∀ i j, i < o.num_meals → j < o.total_meal_slots → isSelected x i j = true →
      selectedEntry o i j ∈ (extract_solution o x pname).selected_meals) ∧
    (∀ e ∈ (extract_solution o x pname).selected_meals,
      ∃ i j, i < o.num_meals ∧ j < o.total_meal_slots ∧ isSelected x i j = true ∧
        e = selectedEntry o i j) ∧
    ((extract_solution o x pname).selected_meals.length =
      ((allIndexPairs o).filter fun p => isSelected x p.1 p.2).length) ∧
    (∀ i j, selectedEntry o i j =
      ⟨mealAt o i, o.days_of_week.getD (j / o.meals_per_day) "",
       j % o.meals_per_day + 1, (mealAt o i).estimated_cost_usd⟩) := by
  have hfld : (extract_solution o x pname).selected_meals = selected_meals_of o x := rfl
  refine ⟨?_, ?_, ?_, fun i j => rfl⟩
  · intro i j hi hj hs
    rw [hfld]
    unfold selected_meals_of
    refine List.mem_flatMap.2 ⟨i, List.mem_range.2 hi, ?_⟩
    refine List.mem_flatMap.2 ⟨j, List.mem_range.2 hj, ?_⟩
    rw [if_pos hs]
    exact List.mem_singleton.2 rfl
  · intro e he
    rw [hfld] at he
    unfold selected_meals_of at he
    rcases List.mem_flatMap.1 he with ⟨i, hi, he2⟩
    rcases List.mem_flatMap.1 he2 with ⟨j, hj, he3⟩
    by_cases hs : isSelected x i j = true
    · rw [if_pos hs] at he3
      rcases List.mem_singleton.1 he3 with rfl
      exact ⟨i, j, List.mem_range.1 hi, List.mem_range.1 hj, hs, rfl⟩
    · rw [if_neg hs] at he3
      simp at he3
  · rw [hfld]
    exact selected_meals_length o x

/-- Claim C10: when `run_optimization` returns normally, the `'custom'` key
is absent from the shared `nutritional_profiles` registry afterwards and
every other key's entry is exactly what it was before the call; and on the
exception path the registry instead still holds the transient `'custom'`
profile (the `del` of line 169 never runs), so the restoration is indeed not
guaranteed when `solve` raises. -/
theorem c10_registry_restoration (o : Optimizer) (req : Requirements)
    (objective : String) (meal_frequency : Nat) (solver : Solver) (r : SolveRun)
    (h : (run_optimization o req objective meal_frequency solver).1 = .ok r) :
    ((run_optimization o req objective meal_frequency solver).2.nutritional_profiles.lookup
        "custom" = none) ∧
    (∀ k, k ≠ "custom" →
      (run_optimization o req objective meal_frequency solver).2.nutritional_profiles.lookup
          k = o.nutritional_profiles.lookup k) ∧
    (∀ (o2 : Optimizer) (req2 : Requirements) (obj2 : String) (freq2 : Nat)
        (solver2 : Solver) (e : SolveErr),
      (run_optimization o2 req2 obj2 freq2 solver2).1 = .error e →
      (run_optimization o2 req2 obj2 freq2 solver2).2.nutritional_profiles.lookup
          "custom" = some (custom_profile req2)) := by
  have herase : ∀ (o2 : Optimizer) (req2 : Requirements),
      (eraseKey (insertedOptimizer o2 req2).nutritional_profiles "custom").lookup
        "custom" = none :=
    fun o2 req2 => lookup_eraseKey_self _ "custom"
  refine ⟨?_, ?_, ?_⟩
  · unfold run_optimization at h ⊢
    cases hs : solve (insertedOptimizer o req) "custom" meal_frequency objective solver with
    | ok r2 =>
        exact herase o req
    | error e =>
        rw [hs] at h
        simp at h
  · intro k hk
    unfold run_optimization at h ⊢
    cases hs : solve (insertedOptimizer o req) "custom" meal_frequency objective solver with
    | ok r2 =>
        show (eraseKey (insertedOptimizer o req).nutritional_profiles "custom").lookup k = _
        rw [lookup_eraseKey_ne _ _ _ hk]
        exact lookup_insertKey_ne _ _ _ _ hk
    | error e =>
        rw [hs] at h
        simp at h
  · intro o2 req2 obj2 freq2 solver2 e he
    unfold run_optimization at he ⊢
    cases hs : solve (insertedOptimizer o2 req2) "custom" freq2 obj2 solver2 with
    | ok r2 =>
        rw [hs] at he
        simp at he
    | error e2 =>
        exact lookup_insertKey_self _ "custom" _

/-- Witness for C10: a normal run on the zero-meal fixture restores the
registry, and the error-path conjunct is exhibited inside the conclusion. -/
theorem c10_registry_restoration_witness :
    ((run_optimization oEmpty [] "minimize_cost" 2 solverOpt).2.nutritional_profiles.lookup
        "custom" = none) ∧
    (∀ k, k ≠ "custom" →
      (run_optimization oEmpty [] "minimize_cost" 2 solverOpt).2.nutritional_profiles.lookup
          k = oEmpty.nutritional_profiles.lookup k) ∧
    (∀ (o2 : Optimizer) (req2 : Requirements) (obj2 : String) (freq2 : Nat)
        (solver2 : Solver) (e : SolveErr),
      (run_optimization o2 req2 obj2 freq2 solver2).1 = .error e →
      (run_optimization o2 req2 obj2 freq2 solver2).2.nutritional_profiles.lookup
          "custom" = some (custom_profile req2)) :=
  c10_registry_restoration oEmpty [] "minimize_cost" 2 solverOpt okRunW rfl

end MealLab
